import Mathlib

/-!
Verification development for the near-space atmospheric analysis pipeline
(src/process_near_space.py and src/atmospheric_analysis.py).

The Python source is shallowly embedded: text lines are `List String`,
numeric CSV/float fields are `ℚ` (all raw fields are finite decimals, and
the analysis only compares and selects them), `NaN`/missing is `Option`,
and the one transcendental function (potential temperature, which uses a
real power with exponent 0.2854) lives over `ℝ`.
-/

/-! ## Python primitives used by `process_near_space.py` -/

/-- Python `str.strip()`: remove leading and trailing whitespace. -/
def pyStrip (s : String) : String :=
  ((s.toList.dropWhile Char.isWhitespace).reverse.dropWhile Char.isWhitespace).reverse.asString

/-- Python slice `s[a:b]` on a string (character indices, clipped at the end). -/
def pySlice (s : String) (a b : Nat) : String :=
  ((s.toList.drop a).take (b - a)).asString

/-- Whether a fixed-width field is absent in the sense of `_parse_int`:
blank after stripping, or one of the sentinel codes -9999 / -8888. -/
def fieldAbsent (segment : String) : Prop :=
  pyStrip segment = "" ∨ pyStrip segment = "-9999" ∨ pyStrip segment = "-8888"

instance (segment : String) : Decidable (fieldAbsent segment) := by
  unfold fieldAbsent; infer_instance

/-- Decimal digits to a natural number, most significant first. -/
def digitsToNat (l : List Char) : Nat :=
  l.foldl (fun n c => n * 10 + (c.toNat - 48)) 0

/-- Python `int()` on an already stripped literal: ASCII digits with an
optional leading minus sign; anything else is not an integer literal. -/
def pyInt? (s : String) : Option Int :=
  match s.toList with
  | [] => none
  | c :: cs =>
    if c = '-' then
      if cs ≠ [] ∧ cs.all Char.isDigit then some (-(digitsToNat cs : Int)) else none
    else if (c :: cs).all Char.isDigit then some ((digitsToNat (c :: cs) : Int)) else none

/-- Embedding of `_parse_int` (src/process_near_space.py lines 23-27): strip the
segment; blank or sentinel yields `none`, otherwise the integer value.
Python `int()` raises on text that is not an integer literal; such text does
not occur in the fixed-width fields considered here, and the embedding maps
it to `none`. -/
def _parse_int (segment : String) : Option Int :=
  if fieldAbsent segment then none else pyInt? (pyStrip segment)

/-- Embedding of `_parse_float` (lines 30-34): parsed integer divided by the
scale.  The quotient is written `mkRat v scale`, the same rational as
`(v : ℚ) / scale`, in a form the kernel can evaluate. -/
def _parse_float (segment : String) (scale : Nat) : Option ℚ :=
  (_parse_int segment).map (fun v => mkRat v scale)

/-- Python truthiness of an optional integer (`if not (year and month and day)`):
`None` and `0` are falsy. -/
def pyTruthy (o : Option Int) : Bool :=
  match o with
  | none => false
  | some v => decide (v ≠ 0)

/-- Python `round` on an exact rational: round half to even.  The fractional
part `q - floor q` is compared with one half through the equivalent integer
condition `2 * (num - floor * den) ? den` (the denominator is positive).
The source rounds `pressure / 100.0`; for the two-decimal values that arise
there the float computation is exact at every tie, so this rational rounding
agrees with it. -/
def pyRound (q : ℚ) : Int :=
  if 2 * (q.num - q.floor * (q.den : Int)) < (q.den : Int) then q.floor
  else if (q.den : Int) < 2 * (q.num - q.floor * (q.den : Int)) then q.floor + 1
  else if q.floor % 2 = 0 then q.floor else q.floor + 1

/-- Python `line.startswith("#")` for the header marker: the first character
of the line is the `#` marker. -/
def startsWithHash (s : String) : Bool :=
  match s.toList with
  | [] => false
  | c :: _ => decide (c = '#')

/-- Hour handling in `parse_igra_soundings` (line 70):
`int(hour) if hour is not None and hour <= 23 else 0`. -/
def hourNorm (hour : Option Int) : Int :=
  match hour with
  | some v => if v ≤ 23 then v else 0
  | none => 0

/-! ## Fixed-width sounding parser (`parse_igra_soundings`, lines 44-140) -/

/-- One stored level (the dict value built on lines 90-95).  `math.nan` fields
are modelled as `none`. -/
structure Level where
  pressure_hpa : ℚ
  gph : Option ℚ
  temp_c : Option ℚ
  rh : Option ℚ
deriving DecidableEq

/-- Embedding of the level-line parse (lines 79-95): fields at fixed offsets;
a line missing pressure or the level-type digit contributes nothing. -/
def parseLevel (line : String) : Option (Int × Level) :=
  match _parse_int (pySlice line 9 15), _parse_int (pySlice line 0 1) with
  | some pressure, some _ =>
    some (pyRound (mkRat pressure 100),
      { pressure_hpa := mkRat pressure 100,
        gph := (_parse_int (pySlice line 16 21)).map (fun v => (v : ℚ)),
        temp_c := _parse_float (pySlice line 22 27) 10,
        rh := _parse_float (pySlice line 28 33) 10 })
  | _, _ => none

/-- The per-sounding level store (`level_store`), an association list keyed
by rounded pressure.  New entries are consed at the front, so lookup finds
the latest insertion: this models dict overwrite of duplicate keys. -/
def buildStore (lines : List String) : List (Int × Level) :=
  lines.foldl
    (fun store line =>
      match parseLevel line with
      | none => store
      | some kv => kv :: store)
    []

/-- One emitted sounding record (lines 118-137).  The record keeps the
timestamp fields and the retained 925/700/850 hPa level data; the derived
physical quantities (potential temperature gradient and friends) are defined
below as functions of these fields. -/
structure SoundingRecord where
  ts_year : Int
  ts_month : Int
  ts_day : Int
  ts_hour : Int
  p925 : ℚ
  t925 : ℚ
  gph925 : Option ℚ
  p700 : ℚ
  t700 : ℚ
  gph700 : Option ℚ
  lvl850 : Option Level
deriving DecidableEq

/-- Record assembly for one valid header (lines 97-137): require the 925 hPa
and 700 hPa levels with non-missing temperature, otherwise skip the sounding. -/
def mkRecord (year month day hour : Option Int) (store : List (Int × Level)) :
    Option SoundingRecord :=
  match store.lookup 925, store.lookup 700 with
  | some l925, some l700 =>
    match l925.temp_c, l700.temp_c with
    | some t925v, some t700v =>
      some { ts_year := year.getD 0, ts_month := month.getD 0, ts_day := day.getD 0,
             ts_hour := hourNorm hour,
             p925 := l925.pressure_hpa, t925 := t925v, gph925 := l925.gph,
             p700 := l700.pressure_hpa, t700 := t700v, gph700 := l700.gph,
             lvl850 := store.lookup 850 }
    | _, _ => none
  | _, _ => none

/-- Embedding of the `parse_igra_soundings` read loop (lines 47-137) over the
list of input lines.  A line not starting with `#` is skipped on its own;
a `#` header with falsy year, month or day consumes its declared level count
and emits nothing; a valid header consumes its level block and emits a record
when `mkRecord` succeeds.  `readline` at end of file is the empty tail, which
`take`/`drop` handle exactly as the Python `break` does. -/
def parse_igra_soundings : List String → List SoundingRecord
  | [] => []
  | header :: rest =>
    if startsWithHash header then
      if pyTruthy (_parse_int (pySlice header 13 17)) &&
         pyTruthy (_parse_int (pySlice header 18 20)) &&
         pyTruthy (_parse_int (pySlice header 21 23)) then
        match mkRecord (_parse_int (pySlice header 13 17))
                       (_parse_int (pySlice header 18 20))
                       (_parse_int (pySlice header 21 23))
                       (_parse_int (pySlice header 24 26))
                       (buildStore
                         (rest.take ((_parse_int (pySlice header 32 36)).getD 0).toNat)) with
        | some r =>
          r :: parse_igra_soundings
                 (rest.drop ((_parse_int (pySlice header 32 36)).getD 0).toNat)
        | none =>
          parse_igra_soundings
            (rest.drop ((_parse_int (pySlice header 32 36)).getD 0).toNat)
      else
        parse_igra_soundings
          (rest.drop ((_parse_int (pySlice header 32 36)).getD 0).toNat)
    else
      parse_igra_soundings rest
termination_by lines => lines.length
decreasing_by
  all_goals simp [List.length_drop]
  all_goals omega

/-! ## Atmospheric derivation (`_potential_temperature`, lines 37-41) -/

/-- Embedding of `_potential_temperature`: Poisson relation over the reals,
`theta = (T_C + 273.15) * (1000 / P_hPa) ^ 0.2854`. -/
noncomputable def _potential_temperature (temp_c pressure_hpa : ℝ) : ℝ :=
  (temp_c + 273.15) * (1000 / pressure_hpa) ^ (0.2854 : ℝ)

/-- Derived view of the record field `theta_gradient_700_925_K` (line 120). -/
noncomputable def SoundingRecord.theta_gradient_700_925_K (r : SoundingRecord) : ℝ :=
  _potential_temperature (r.t700 : ℝ) (r.p700 : ℝ) -
    _potential_temperature (r.t925 : ℝ) (r.p925 : ℝ)

/-! ## Aggregation keys (`compute_monthly_metrics` lines 143-158,
`compute_seasonal_metrics` lines 161-192) -/

/-- Embedding of the inner `season_label` function (lines 164-178): season by
month of year, with the year attribution advanced to the following year for
December (DJF) and kept as-is otherwise. -/
def season_label (y m : Int) : String :=
  if m = 12 ∨ m = 1 ∨ m = 2 then
    toString (if m = 12 then y + 1 else y) ++ "-DJF"
  else if m = 3 ∨ m = 4 ∨ m = 5 then toString y ++ "-MAM"
  else if m = 6 ∨ m = 7 ∨ m = 8 then toString y ++ "-JJA"
  else toString y ++ "-SON"

/-- Pandas `dt.to_period("M")` applied to a timestamp: the plain
(year, calendar month) pair, day and hour dropped, no year shift. -/
def to_period_M (y m _d _h : Int) : Int × Int := (y, m)

/-- The seasonal grouping key of a sounding record (line 180). -/
def record_season (r : SoundingRecord) : String :=
  season_label r.ts_year r.ts_month

/-- The monthly grouping key of a sounding record (line 145). -/
def record_month_key (r : SoundingRecord) : Int × Int :=
  to_period_M r.ts_year r.ts_month r.ts_day r.ts_hour

/-! ## Monthly tables and the merge in `main` (lines 228-259)

Months are encoded as `Nat` in the form YYYYMM; on the CSV side the key is the
string "YYYY-MM", whose lexicographic order (used by the terminal
`query("month >= 2010-01")`) agrees with the numeric order of this encoding.
The metric columns are carried as `Option ℚ` payloads: CSV cells are finite
decimals and the merge never computes with them. -/

/-- One row of `igra_monthly_metrics` (output of `compute_monthly_metrics`). -/
structure IgraMonthlyRow where
  month : Nat
  theta_gradient_med : Option ℚ
  theta_gradient_iqr : Option ℚ
  rh_850_med : Option ℚ
  height_diff_med : Option ℚ
  soundings : Nat
deriving DecidableEq

/-- One row of the optical-depth aerosol table (`read_aeronet_monthly`, lines 195-211). -/
structure AodRow where
  month : Nat
  aod500 : Option ℚ
  aod870 : Option ℚ
  ae_440_870 : Option ℚ
  obs_days : Option ℚ
deriving DecidableEq

/-- One row of the spectral-deconvolution aerosol table (`read_sda_monthly`, lines 214-225). -/
structure SdaRow where
  month : Nat
  total_aod : Option ℚ
  fine_aod : Option ℚ
  coarse_aod : Option ℚ
  fine_fraction : Option ℚ
deriving DecidableEq

/-- One row of `aeronet_monthly_metrics` (the AOD-with-SDA inner join, lines 241-246). -/
structure AerosolRow where
  month : Nat
  aod500 : Option ℚ
  aod870 : Option ℚ
  ae_440_870 : Option ℚ
  obs_days : Option ℚ
  total_aod : Option ℚ
  fine_aod : Option ℚ
  coarse_aod : Option ℚ
  fine_fraction : Option ℚ
deriving DecidableEq

/-- One row of `near_space_monthly_combo` (the merged output, lines 250-259);
this is also the shape `atmospheric_analysis.py` reads back in. -/
structure ComboRow where
  month : Nat
  theta_gradient_med : Option ℚ
  theta_gradient_iqr : Option ℚ
  rh_850_med : Option ℚ
  height_diff_med : Option ℚ
  soundings : Nat
  aod500 : Option ℚ
  aod870 : Option ℚ
  ae_440_870 : Option ℚ
  obs_days : Option ℚ
  total_aod : Option ℚ
  fine_aod : Option ℚ
  coarse_aod : Option ℚ
  fine_fraction : Option ℚ
deriving DecidableEq

/-- Pandas inner merge of the two aerosol tables on `month` (line 242): for
each left row, in order, all right rows with the same month. -/
def mergeAodSda (aod : List AodRow) (sda : List SdaRow) : List AerosolRow :=
  aod.flatMap (fun a =>
    (sda.filter (fun s => s.month == a.month)).map (fun s =>
      { month := a.month, aod500 := a.aod500, aod870 := a.aod870,
        ae_440_870 := a.ae_440_870, obs_days := a.obs_days,
        total_aod := s.total_aod, fine_aod := s.fine_aod,
        coarse_aod := s.coarse_aod, fine_fraction := s.fine_fraction }))

/-- Insertion step of the `sort_values("month")` model. -/
def insertByMonth (a : AerosolRow) : List AerosolRow → List AerosolRow
  | [] => [a]
  | b :: l => if a.month ≤ b.month then a :: b :: l else b :: insertByMonth a l

/-- `sort_values("month")` on the joined aerosol table (line 243). -/
def sortByMonth (l : List AerosolRow) : List AerosolRow :=
  l.foldr insertByMonth []

/-- Column concatenation of one matched pair of merge rows. -/
def comboOf (g : IgraMonthlyRow) (a : AerosolRow) : ComboRow :=
  { month := g.month,
    theta_gradient_med := g.theta_gradient_med,
    theta_gradient_iqr := g.theta_gradient_iqr,
    rh_850_med := g.rh_850_med, height_diff_med := g.height_diff_med,
    soundings := g.soundings,
    aod500 := a.aod500, aod870 := a.aod870, ae_440_870 := a.ae_440_870,
    obs_days := a.obs_days, total_aod := a.total_aod, fine_aod := a.fine_aod,
    coarse_aod := a.coarse_aod, fine_fraction := a.fine_fraction }

/-- Pandas inner merge of the sounding monthly metrics with the aerosol table
on `month` (lines 250-255); row order follows the left (sounding) keys. -/
def mergeCombo (igra : List IgraMonthlyRow) (aer : List AerosolRow) : List ComboRow :=
  igra.flatMap (fun g =>
    (aer.filter (fun a => a.month == g.month)).map (comboOf g))

/-- The date floor of the terminal filter `query("month >= 2010-01")` (line 256). -/
def monthFloor : Nat := 201001

/-- The merged monthly combo produced by `main` (lines 241-259): join the two
aerosol products, sort by month, inner-join with the sounding monthly metrics,
then drop months before the floor. -/
def mainMerged (igra : List IgraMonthlyRow) (aod : List AodRow) (sda : List SdaRow) :
    List ComboRow :=
  (mergeCombo igra (sortByMonth (mergeAodSda aod sda))).filter
    (fun r => decide (monthFloor ≤ r.month))

/-! ## Statistics and classification engine (`atmospheric_analysis.py`) -/

/-- Whether a combo row is kept by the `dropna()` on the six selected columns
of `calculate_correlations` (lines 40-45): stability median, fine AOD,
coarse AOD, total AOD, fine-mode fraction and humidity median, jointly. -/
def rowComplete (r : ComboRow) : Bool :=
  r.theta_gradient_med.isSome && r.fine_aod.isSome && r.coarse_aod.isSome &&
  r.total_aod.isSome && r.fine_fraction.isSome && r.rh_850_med.isSome

/-- `clean_combo` (lines 40-45): the rows surviving the joint `dropna()`. -/
def cleanCombo (rows : List ComboRow) : List ComboRow :=
  rows.filter rowComplete

/-- One entry of the `correlations` dict (lines 47-92): its key and the two
paired sample columns handed to `scipy.stats.pearsonr`.  The numeric r and
p-value are computed by scipy, an external collaborator outside this
repository, so the entry records exactly the data the source passes to it. -/
structure CorrEntry where
  key : String
  xs : List ℚ
  ys : List ℚ
deriving DecidableEq

/-- Column extraction on clean rows; on `cleanCombo` output every field is
present, so the default is never used. -/
def colOf (f : ComboRow → Option ℚ) (rows : List ComboRow) : List ℚ :=
  rows.map (fun r => (f r).getD 0)

/-- Embedding of `calculate_correlations` (lines 36-94): one joint `dropna`
over the six columns, then a single `len(clean_combo) > 2` guard inside which
all four pairs are emitted; with the guard false the dict stays empty. -/
def calculate_correlations (rows : List ComboRow) : List CorrEntry :=
  if 2 < (cleanCombo rows).length then
    [ { key := "stability_vs_fine_aod",
        xs := colOf ComboRow.theta_gradient_med (cleanCombo rows),
        ys := colOf ComboRow.fine_aod (cleanCombo rows) },
      { key := "stability_vs_coarse_aod",
        xs := colOf ComboRow.theta_gradient_med (cleanCombo rows),
        ys := colOf ComboRow.coarse_aod (cleanCombo rows) },
      { key := "stability_vs_fine_fraction",
        xs := colOf ComboRow.theta_gradient_med (cleanCombo rows),
        ys := colOf ComboRow.fine_fraction (cleanCombo rows) },
      { key := "humidity_vs_fine_aod",
        xs := colOf ComboRow.rh_850_med (cleanCombo rows),
        ys := colOf ComboRow.fine_aod (cleanCombo rows) } ]
  else []

/-- The four correlation-pair keys, in emission order. -/
def corrPairKeys : List String :=
  ["stability_vs_fine_aod", "stability_vs_coarse_aod",
   "stability_vs_fine_fraction", "humidity_vs_fine_aod"]

/-- Modelled from the spec: the paired-observation count for one correlation
pair, dropping only rows with a missing value among that pair of columns.
This follows the spec wording and is compared against what the source code
(`calculate_correlations` above) actually does. -/
def specPairedCount (rows : List ComboRow) (x y : ComboRow → Option ℚ) : Nat :=
  (rows.filter (fun r => (x r).isSome && (y r).isSome)).length

/-- Pandas comparison of a possibly-missing cell with a threshold:
`NaN > c` is false. -/
def optGtQ (o : Option ℚ) (c : ℚ) : Bool :=
  match o with
  | some v => decide (c < v)
  | none => false

/-- The `high_pollution_episode` column (lines 131-134):
stability median > 12 K and fine-mode AOD > 0.3. -/
def high_pollution_episode (r : ComboRow) : Bool :=
  optGtQ r.theta_gradient_med 12 && optGtQ r.fine_aod (mkRat 3 10)

/-- The `stagnant_conditions` column (lines 136-139):
stability median > 12 K and humidity median > 70. -/
def stagnant_conditions (r : ComboRow) : Bool :=
  optGtQ r.theta_gradient_med 12 && optGtQ r.rh_850_med 70

/-- The episode selection of `identify_high_pollution_episodes` (line 141):
keep exactly the rows whose high-pollution flag is true.  The Python function
then projects a fixed column set for the report, which does not change which
rows appear. -/
def identify_high_pollution_episodes (rows : List ComboRow) : List ComboRow :=
  rows.filter high_pollution_episode

/-- Embedding of `classify_dispersion` (lines 167-175): first-match-wins
threshold chain on the stability median. -/
def classify_dispersion (theta_gradient_med : ℚ) : String :=
  if theta_gradient_med < 8 then "Excellent"
  else if theta_gradient_med < 12 then "Good"
  else if theta_gradient_med < 15 then "Moderate"
  else "Poor"

/-- Embedding of `attribute_source` (lines 195-205): missing fine-mode
fraction is Unknown, then strict thresholds at 0.6 and 0.4. -/
def attribute_source (r : ComboRow) : String :=
  match r.fine_fraction with
  | none => "Unknown"
  | some f =>
    if mkRat 6 10 < f then "Combustion-dominated (urban/biomass)"
    else if mkRat 4 10 < f then "Mixed (combustion + dust)"
    else "Dust-dominated (natural)"

/-! ## Shared concrete rows for witnesses and counterexamples -/

/-- A fully populated merged row matching the spec scenario
stability=13, fine-AOD=0.35, humidity=75. -/
def exEpisodeRow : ComboRow :=
  { month := 201301, theta_gradient_med := some 13, theta_gradient_iqr := some 1,
    rh_850_med := some 75, height_diff_med := some 2300, soundings := 10,
    aod500 := some (mkRat 4 10), aod870 := some (mkRat 2 10), ae_440_870 := some 1,
    obs_days := some 20, total_aod := some (mkRat 5 10), fine_aod := some (mkRat 35 100),
    coarse_aod := some (mkRat 15 100), fine_fraction := some (mkRat 7 10) }

/-- A merged row with missing stability, humidity and fine-mode fraction. -/
def exMissingRow : ComboRow :=
  { month := 201302, theta_gradient_med := none, theta_gradient_iqr := none,
    rh_850_med := none, height_diff_med := none, soundings := 0,
    aod500 := some (mkRat 4 10), aod870 := some (mkRat 2 10), ae_440_870 := some 1,
    obs_days := some 20, total_aod := some (mkRat 5 10), fine_aod := some (mkRat 35 100),
    coarse_aod := some (mkRat 15 100), fine_fraction := none }

/-- The decimal thresholds of the analysis stage, written `mkRat` in the
definitions, equal their decimal literals. -/
theorem mkRat_threshold_eq :
    (mkRat 3 10 : ℚ) = 0.3 ∧ (mkRat 4 10 : ℚ) = 0.4 ∧ (mkRat 6 10 : ℚ) = 0.6 := by
  norm_num [Rat.mkRat_eq_div]

/-! ## Claims -/

/-- Claim C9: for every present temperature and pressure the potential
temperature is `(T_C + 273.15) * (1000 / P_hPa) ^ 0.2854` Kelvin, and at the
reference pressure 1000 hPa it is exactly `T_C + 273.15`. -/
theorem potential_temperature_poisson (t p : ℝ) :
    _potential_temperature t p = (t + 273.15) * (1000 / p) ^ (0.2854 : ℝ) ∧
    _potential_temperature t 1000 = t + 273.15 := by
  refine ⟨rfl, ?_⟩
  unfold _potential_temperature
  rw [div_self (by norm_num : (1000 : ℝ) ≠ 0), Real.one_rpow, mul_one]

/-- Claim C4: the dispersion classification is total with the four interval
labels, and the boundaries 8, 12, 15 fall into Good, Moderate, Poor. -/
theorem classify_dispersion_total (s : ℚ) :
    (classify_dispersion s = "Excellent" ↔ s < 8) ∧
    (classify_dispersion s = "Good" ↔ 8 ≤ s ∧ s < 12) ∧
    (classify_dispersion s = "Moderate" ↔ 12 ≤ s ∧ s < 15) ∧
    (classify_dispersion s = "Poor" ↔ 15 ≤ s) ∧
    (classify_dispersion s = "Excellent" ∨ classify_dispersion s = "Good" ∨
      classify_dispersion s = "Moderate" ∨ classify_dispersion s = "Poor") ∧
    classify_dispersion (8 : ℚ) = "Good" ∧
    classify_dispersion (12 : ℚ) = "Moderate" ∧
    classify_dispersion (15 : ℚ) = "Poor" := by
  have h8 : classify_dispersion (8 : ℚ) = "Good" := by decide
  have h12 : classify_dispersion (12 : ℚ) = "Moderate" := by decide
  have h15 : classify_dispersion (15 : ℚ) = "Poor" := by decide
  rcases lt_or_le s 8 with c1 | c1
  · have e : classify_dispersion s = "Excellent" := by
      unfold classify_dispersion; rw [if_pos c1]
    rw [e]
    exact ⟨iff_of_true rfl c1,
           iff_of_false (by decide) (by rintro ⟨a, b⟩; linarith),
           iff_of_false (by decide) (by rintro ⟨a, b⟩; linarith),
           iff_of_false (by decide) (by linarith),
           Or.inl rfl, h8, h12, h15⟩
  · rcases lt_or_le s 12 with c2 | c2
    · have e : classify_dispersion s = "Good" := by
        unfold classify_dispersion; rw [if_neg (not_lt.mpr c1), if_pos c2]
      rw [e]
      exact ⟨iff_of_false (by decide) (by linarith),
             iff_of_true rfl ⟨c1, c2⟩,
             iff_of_false (by decide) (by rintro ⟨a, b⟩; linarith),
             iff_of_false (by decide) (by linarith),
             Or.inr (Or.inl rfl), h8, h12, h15⟩
    · rcases lt_or_le s 15 with c3 | c3
      · have e : classify_dispersion s = "Moderate" := by
          unfold classify_dispersion
          rw [if_neg (not_lt.mpr c1), if_neg (not_lt.mpr c2), if_pos c3]
        rw [e]
        exact ⟨iff_of_false (by decide) (by linarith),
               iff_of_false (by decide) (by rintro ⟨a, b⟩; linarith),
               iff_of_true rfl ⟨c2, c3⟩,
               iff_of_false (by decide) (by linarith),
               Or.inr (Or.inr (Or.inl rfl)), h8, h12, h15⟩
      · have e : classify_dispersion s = "Poor" := by
          unfold classify_dispersion
          rw [if_neg (not_lt.mpr c1), if_neg (not_lt.mpr c2), if_neg (not_lt.mpr c3)]
        rw [e]
        exact ⟨iff_of_false (by decide) (by linarith),
               iff_of_false (by decide) (by rintro ⟨a, b⟩; linarith),
               iff_of_false (by decide) (by rintro ⟨a, b⟩; linarith),
               iff_of_true rfl c3,
               Or.inr (Or.inr (Or.inr rfl)), h8, h12, h15⟩

/-- Claim C5: on a row with present stability median, fine-mode AOD and
humidity median, the high-pollution flag is true iff stability > 12 and
fine AOD > 0.3, and the stagnant flag is true iff stability > 12 and
humidity > 70; the two predicates are independent on the same row. -/
theorem episode_flags_iff (r : ComboRow) (s f h : ℚ)
    (hs : r.theta_gradient_med = some s) (hf : r.fine_aod = some f)
    (hh : r.rh_850_med = some h) :
    (high_pollution_episode r = true ↔ 12 < s ∧ (0.3 : ℚ) < f) ∧
    (stagnant_conditions r = true ↔ 12 < s ∧ (70 : ℚ) < h) := by
  constructor <;>
    simp [high_pollution_episode, stagnant_conditions, optGtQ, hs, hf, hh,
      mkRat_threshold_eq.1, Bool.and_eq_true, decide_eq_true_iff]

/-- Witness for C5 at the spec scenario stability=13, fine-AOD=0.35,
humidity=75: both flags come out true. -/
theorem episode_flags_iff_witness :
    high_pollution_episode exEpisodeRow = true ∧
    stagnant_conditions exEpisodeRow = true :=
  ⟨(episode_flags_iff exEpisodeRow 13 (mkRat 35 100) 75 rfl rfl rfl).1.mpr
      (by norm_num),
   (episode_flags_iff exEpisodeRow 13 (mkRat 35 100) 75 rfl rfl rfl).2.mpr
      (by norm_num)⟩

/-- Claim C10: a missing stability median, fine-mode AOD or humidity median
makes the threshold comparison false, so the corresponding flag is false,
and a row in the high-pollution-episodes output always has a present
stability median and fine-mode AOD. -/
theorem missing_values_block_episode_flags (rows : List ComboRow) (r : ComboRow) :
    ((r.theta_gradient_med = none ∨ r.fine_aod = none) →
      high_pollution_episode r = false) ∧
    ((r.theta_gradient_med = none ∨ r.rh_850_med = none) →
      stagnant_conditions r = false) ∧
    (r ∈ identify_high_pollution_episodes rows →
      r.theta_gradient_med ≠ none ∧ r.fine_aod ≠ none) := by
  refine ⟨?_, ?_, ?_⟩
  · rintro (h | h) <;> simp [high_pollution_episode, optGtQ, h]
  · rintro (h | h) <;> simp [stagnant_conditions, optGtQ, h]
  · intro hmem
    rw [identify_high_pollution_episodes, List.mem_filter] at hmem
    have hflag := hmem.2
    constructor <;> intro hnone <;>
      simp [high_pollution_episode, optGtQ, hnone] at hflag

/-- Witness for C10: the flags are false on a row with missing stability and
humidity, and a row inside the episodes output has both columns present. -/
theorem missing_values_block_episode_flags_witness :
    high_pollution_episode exMissingRow = false ∧
    stagnant_conditions exMissingRow = false ∧
    (exEpisodeRow.theta_gradient_med ≠ none ∧ exEpisodeRow.fine_aod ≠ none) :=
  ⟨(missing_values_block_episode_flags [] exMissingRow).1 (Or.inl rfl),
   (missing_values_block_episode_flags [] exMissingRow).2.1 (Or.inl rfl),
   (missing_values_block_episode_flags [exEpisodeRow] exEpisodeRow).2.2 (by decide)⟩

/-- Claim C6: the aerosol source label is Unknown for a missing fine-mode
fraction, Combustion-dominated above 0.6, Mixed above 0.4 up to 0.6, and
Dust-dominated otherwise; 0.55 gives Mixed and 0.65 gives
Combustion-dominated.  The source uses the full label strings
"Combustion-dominated (urban/biomass)", "Mixed (combustion + dust)" and
"Dust-dominated (natural)", which the claim abbreviates. -/
theorem attribute_source_classification (r : ComboRow) :
    (r.fine_fraction = none → attribute_source r = "Unknown") ∧
    (∀ f : ℚ, r.fine_fraction = some f →
      ((0.6 : ℚ) < f →
        attribute_source r = "Combustion-dominated (urban/biomass)") ∧
      ((0.4 : ℚ) < f → f ≤ (0.6 : ℚ) →
        attribute_source r = "Mixed (combustion + dust)") ∧
      (f ≤ (0.4 : ℚ) → attribute_source r = "Dust-dominated (natural)")) ∧
    attribute_source { r with fine_fraction := some (0.55 : ℚ) } =
      "Mixed (combustion + dust)" ∧
    attribute_source { r with fine_fraction := some (0.65 : ℚ) } =
      "Combustion-dominated (urban/biomass)" ∧
    attribute_source { r with fine_fraction := none } = "Unknown" := by
  refine ⟨?_, ?_, ?_, ?_, rfl⟩
  · intro h; simp [attribute_source, h]
  · intro f hf
    refine ⟨?_, ?_, ?_⟩
    · intro h6
      simp only [attribute_source, hf, mkRat_threshold_eq.1, mkRat_threshold_eq.2.1,
        mkRat_threshold_eq.2.2]
      rw [if_pos h6]
    · intro h4 h6
      simp only [attribute_source, hf, mkRat_threshold_eq.1, mkRat_threshold_eq.2.1,
        mkRat_threshold_eq.2.2]
      rw [if_neg (by linarith), if_pos h4]
    · intro h4
      simp only [attribute_source, hf, mkRat_threshold_eq.1, mkRat_threshold_eq.2.1,
        mkRat_threshold_eq.2.2]
      rw [if_neg (by linarith), if_neg (by linarith)]
  · norm_num [attribute_source, Rat.mkRat_eq_div]
  · norm_num [attribute_source, Rat.mkRat_eq_div]

/-- Witness for C6: Unknown on a row with missing fraction, and
Combustion-dominated at fraction 0.7. -/
theorem attribute_source_classification_witness :
    attribute_source exMissingRow = "Unknown" ∧
    attribute_source exEpisodeRow = "Combustion-dominated (urban/biomass)" :=
  ⟨(attribute_source_classification exMissingRow).1 rfl,
   ((attribute_source_classification exEpisodeRow).2.1 (mkRat 7 10) rfl).1
     (by norm_num)⟩

/-- Counterexample for claim C7: the two-character hour field can hold "-1",
which `_parse_int` reads as -1; the guard `hour <= 23` accepts it, so the
hour is passed through unchanged instead of being normalized to 0, and it
does not lie in [0, 23]. -/
theorem hour_normalization_counterexample :
    _parse_int ("-1") = some (-1) ∧
    hourNorm (some (-1)) = -1 ∧
    hourNorm (some (-1)) ≠ 0 := by
  refine ⟨?_, by decide, by decide⟩
  decide

/-- Claim C7 (amended): an hour that is absent or strictly greater than 23 is
normalized to 0 (the header is not treated as malformed); a parsed hour of at
most 23 — including a negative one — is kept unchanged; hence whenever the
parsed hour is absent or non-negative, the stored hour lies in [0, 23]. -/
theorem hour_normalization (h : Option Int) :
    ((h = none ∨ ∃ v, h = some v ∧ 23 < v) → hourNorm h = 0) ∧
    (∀ v : Int, h = some v → v ≤ 23 → hourNorm h = v) ∧
    ((h = none ∨ ∃ v, h = some v ∧ 0 ≤ v) → 0 ≤ hourNorm h ∧ hourNorm h ≤ 23) := by
  refine ⟨?_, ?_, ?_⟩
  · rintro (rfl | ⟨v, rfl, hv⟩)
    · rfl
    · simp only [hourNorm]
      rw [if_neg (by omega)]
  · rintro v rfl hv
    simp only [hourNorm]
    rw [if_pos hv]
  · rintro (rfl | ⟨v, rfl, hv⟩)
    · constructor <;> norm_num [hourNorm]
    · simp only [hourNorm]
      split_ifs with hle
      · omega
      · omega

/-- Witness for the amended C7: hour 99 (the IGRA missing code) goes to 0,
hour 11 is kept, and the stored hour stays inside [0, 23]. -/
theorem hour_normalization_witness :
    hourNorm (some 99) = 0 ∧ hourNorm (some 11) = 11 ∧
    (0 ≤ hourNorm (some 99) ∧ hourNorm (some 99) ≤ 23) :=
  ⟨(hour_normalization (some 99)).1 (Or.inr ⟨99, rfl, by norm_num⟩),
   (hour_normalization (some 11)).2.1 11 rfl (by norm_num),
   (hour_normalization (some 99)).2.2 (Or.inr ⟨99, rfl, by norm_num⟩)⟩

/-- Claim C8: the seasonal key attributes a December sounding to the DJF of
the following year while January and February keep their own year, the other
seasons keep their own year, and the monthly key is the plain
(year, calendar month) pair with no shift. -/
theorem seasonal_vs_monthly_year_convention (r : SoundingRecord)
    (hm : 1 ≤ r.ts_month ∧ r.ts_month ≤ 12) :
    (r.ts_month = 12 → record_season r = toString (r.ts_year + 1) ++ "-DJF") ∧
    ((r.ts_month = 1 ∨ r.ts_month = 2) →
      record_season r = toString r.ts_year ++ "-DJF") ∧
    (3 ≤ r.ts_month → r.ts_month ≤ 5 →
      record_season r = toString r.ts_year ++ "-MAM") ∧
    (6 ≤ r.ts_month → r.ts_month ≤ 8 →
      record_season r = toString r.ts_year ++ "-JJA") ∧
    (9 ≤ r.ts_month → r.ts_month ≤ 11 →
      record_season r = toString r.ts_year ++ "-SON") ∧
    record_month_key r = (r.ts_year, r.ts_month) := by
  refine ⟨?_, ?_, ?_, ?_, ?_, rfl⟩
  · intro h
    simp only [record_season, season_label]
    rw [if_pos (by omega), if_pos h]
  · rintro (h | h) <;>
    · simp only [record_season, season_label]
      rw [if_pos (by omega), if_neg (by omega)]
  · intro h3 h5
    simp only [record_season, season_label]
    rw [if_neg (by omega), if_pos (by omega)]
  · intro h6 h8
    simp only [record_season, season_label]
    rw [if_neg (by omega), if_neg (by omega), if_pos (by omega)]
  · intro h9 h11
    simp only [record_season, season_label]
    rw [if_neg (by omega), if_neg (by omega), if_neg (by omega)]

/-- A concrete December sounding record used to witness C8. -/
def exDecemberRecord : SoundingRecord :=
  { ts_year := 2012, ts_month := 12, ts_day := 15, ts_hour := 0,
    p925 := 925, t925 := 10, gph925 := some 800,
    p700 := 700, t700 := -5, gph700 := some 3100, lvl850 := none }

/-- Witness for C8: the December 2012 sounding lands in the 2013 DJF season
while its monthly key keeps year 2012 and month 12. -/
theorem seasonal_vs_monthly_year_convention_witness :
    record_season exDecemberRecord = toString ((2012 : Int) + 1) ++ "-DJF" ∧
    record_month_key exDecemberRecord = ((2012 : Int), (12 : Int)) :=
  ⟨(seasonal_vs_monthly_year_convention exDecemberRecord (by decide)).1 rfl,
   (seasonal_vs_monthly_year_convention exDecemberRecord (by decide)).2.2.2.2.2⟩

/-- Claim C3: a `#` header whose year, month or day field is absent emits no
record, and the parse of the whole input equals the parse resuming exactly
`level_count` lines later — the read cursor lands on the next header line
with no line leaked or read twice. -/
theorem malformed_header_skips_block (header : String) (rest : List String)
    (hH : startsWithHash header = true)
    (hAbsent : fieldAbsent (pySlice header 13 17) ∨
      fieldAbsent (pySlice header 18 20) ∨ fieldAbsent (pySlice header 21 23)) :
    parse_igra_soundings (header :: rest) =
      parse_igra_soundings
        (rest.drop ((_parse_int (pySlice header 32 36)).getD 0).toNat) := by
  have hnone : (pyTruthy (_parse_int (pySlice header 13 17)) &&
      pyTruthy (_parse_int (pySlice header 18 20)) &&
      pyTruthy (_parse_int (pySlice header 21 23))) = false := by
    rcases hAbsent with h | h | h
    · have hp : _parse_int (pySlice header 13 17) = none := by
        simp only [_parse_int]; rw [if_pos h]
      simp [pyTruthy, hp]
    · have hp : _parse_int (pySlice header 18 20) = none := by
        simp only [_parse_int]; rw [if_pos h]
      simp [pyTruthy, hp]
    · have hp : _parse_int (pySlice header 21 23) = none := by
        simp only [_parse_int]; rw [if_pos h]
      simp [pyTruthy, hp]
  simp [parse_igra_soundings, hH, hnone]

/-- A 36-character header line with the marker, a blank year field, and a
declared level count of 2. -/
def hdrC3 : String :=
  "#AAAAAAAAAAAA" ++ "    " ++ " 01 02 00" ++ "      " ++ "   2"

/-- Witness for C3: on a malformed header declaring two levels, the parser
consumes exactly the two level lines and resumes at the following line. -/
theorem malformed_header_skips_block_witness :
    startsWithHash hdrC3 = true ∧
    fieldAbsent (pySlice hdrC3 13 17) ∧
    parse_igra_soundings [hdrC3, "lvlA", "lvlB", "orphan"] =
      parse_igra_soundings ["orphan"] := by
  refine ⟨by decide, by decide, ?_⟩
  have h := malformed_header_skips_block hdrC3 ["lvlA", "lvlB", "orphan"]
    (by decide) (Or.inl (by decide))
  have hn : ((_parse_int (pySlice hdrC3 32 36)).getD 0).toNat = 2 := by decide
  rw [hn] at h
  exact h

/-- Membership is preserved by one insertion step of the month sort. -/
theorem mem_insertByMonth {x a : AerosolRow} {l : List AerosolRow} :
    x ∈ insertByMonth a l ↔ x = a ∨ x ∈ l := by
  induction l with
  | nil => simp [insertByMonth]
  | cons b t ih =>
    simp only [insertByMonth]
    split_ifs
    · simp [List.mem_cons]
    · rw [List.mem_cons, ih, List.mem_cons]
      tauto

/-- The month sort is a permutation as far as membership is concerned. -/
theorem mem_sortByMonth {x : AerosolRow} {l : List AerosolRow} :
    x ∈ sortByMonth l ↔ x ∈ l := by
  induction l with
  | nil => simp [sortByMonth]
  | cons a t ih =>
    show x ∈ insertByMonth a (sortByMonth t) ↔ _
    rw [mem_insertByMonth, ih, List.mem_cons]

/-- A list of equal months is sorted. -/
theorem sorted_of_all_eq_month {l : List Nat} {c : Nat} (h : ∀ x ∈ l, x = c) :
    List.Sorted (· ≤ ·) l := by
  induction l with
  | nil => simp
  | cons a t ih =>
    rw [List.sorted_cons]
    refine ⟨fun b hb => ?_, ih fun x hx => h x (List.mem_cons_of_mem _ hx)⟩
    rw [h a (List.mem_cons_self _ _), h b (List.mem_cons_of_mem _ hb)]

/-- Every merged row takes its month from some left (sounding) row. -/
theorem month_of_mem_mergeCombo {r : ComboRow} {igra : List IgraMonthlyRow}
    {aer : List AerosolRow} (h : r ∈ mergeCombo igra aer) :
    ∃ g ∈ igra, r.month = g.month := by
  simp only [mergeCombo, List.mem_flatMap, List.mem_map, List.mem_filter] at h
  obtain ⟨g, hg, a, _, rfl⟩ := h
  exact ⟨g, hg, rfl⟩

/-- The merge preserves sortedness of the left key column: each left row
contributes a block of rows all carrying its own month. -/
theorem sorted_mergeCombo {igra : List IgraMonthlyRow} {aer : List AerosolRow}
    (h : List.Sorted (· ≤ ·) (igra.map IgraMonthlyRow.month)) :
    List.Sorted (· ≤ ·) ((mergeCombo igra aer).map ComboRow.month) := by
  induction igra with
  | nil => simp [mergeCombo]
  | cons g gs ih =>
    rw [List.map_cons, List.sorted_cons] at h
    have hsplit : mergeCombo (g :: gs) aer =
        ((aer.filter (fun a => a.month == g.month)).map (comboOf g)) ++
          mergeCombo gs aer := by
      simp [mergeCombo]
    rw [hsplit, List.map_append]
    refine List.pairwise_append.mpr ⟨?_, ih h.2, ?_⟩
    · refine sorted_of_all_eq_month (c := g.month) ?_
      intro x hx
      simp only [List.map_map, List.mem_map] at hx
      obtain ⟨a, _, rfl⟩ := hx
      rfl
    · intro x hx y hy
      simp only [List.map_map, List.mem_map] at hx
      obtain ⟨a, _, rfl⟩ := hx
      simp only [List.mem_map] at hy
      obtain ⟨rr, hrr, rfl⟩ := hy
      obtain ⟨g2, hg2, he⟩ := month_of_mem_mergeCombo hrr
      rw [he]
      exact h.1 g2.month (List.mem_map_of_mem _ hg2)

/-- Claim C2: every merged monthly row carries a month present in all three
sources (sounding monthly metrics, optical-depth table, spectral table) and
at least the 2010-01 floor, and when the sounding monthly table is sorted by
month — which the pandas groupby guarantees — the merged output is sorted
ascending by month; months missing from any source are dropped, never
null-padded. -/
theorem merged_month_invariant (igra : List IgraMonthlyRow) (aod : List AodRow)
    (sda : List SdaRow) :
    (∀ r ∈ mainMerged igra aod sda,
      r.month ∈ igra.map IgraMonthlyRow.month ∧
      r.month ∈ aod.map AodRow.month ∧
      r.month ∈ sda.map SdaRow.month ∧
      monthFloor ≤ r.month) ∧
    (List.Sorted (· ≤ ·) (igra.map IgraMonthlyRow.month) →
      List.Sorted (· ≤ ·) ((mainMerged igra aod sda).map ComboRow.month)) := by
  constructor
  · intro r hr
    rw [mainMerged, List.mem_filter] at hr
    obtain ⟨hmem, hfloor⟩ := hr
    have hfl : monthFloor ≤ r.month := by simpa using hfloor
    simp only [mergeCombo, List.mem_flatMap, List.mem_map, List.mem_filter,
      beq_iff_eq] at hmem
    obtain ⟨g, hg, a, ⟨haer, hmon⟩, rfl⟩ := hmem
    have haer2 : a ∈ mergeAodSda aod sda := mem_sortByMonth.mp haer
    simp only [mergeAodSda, List.mem_flatMap, List.mem_map, List.mem_filter,
      beq_iff_eq] at haer2
    obtain ⟨ao, hao, sd, ⟨hsd, hsdm⟩, rfl⟩ := haer2
    refine ⟨List.mem_map_of_mem _ hg, ?_, ?_, hfl⟩
    · show g.month ∈ aod.map AodRow.month
      rw [← hmon]
      exact List.mem_map_of_mem _ hao
    · show g.month ∈ sda.map SdaRow.month
      rw [← hmon]
      simpa [hsdm] using List.mem_map_of_mem SdaRow.month hsd
  · intro hs
    have h1 := @sorted_mergeCombo igra (sortByMonth (mergeAodSda aod sda)) hs
    exact h1.sublist ((List.filter_sublist _).map _)

/-- A two-month sounding monthly table, sorted by month. -/
def igraEx : List IgraMonthlyRow :=
  [{ month := 201001, theta_gradient_med := some 10, theta_gradient_iqr := some 2,
     rh_850_med := some 50, height_diff_med := some 2300, soundings := 5 },
   { month := 201002, theta_gradient_med := some 11, theta_gradient_iqr := some 2,
     rh_850_med := some 55, height_diff_med := some 2280, soundings := 6 }]

/-- A one-month optical-depth aerosol table. -/
def aodEx : List AodRow :=
  [{ month := 201001, aod500 := some 1, aod870 := some 1,
     ae_440_870 := some 1, obs_days := some 15 }]

/-- A one-month spectral-deconvolution aerosol table. -/
def sdaEx : List SdaRow :=
  [{ month := 201001, total_aod := some 1, fine_aod := some 1,
     coarse_aod := some 1, fine_fraction := some 1 }]

/-- The merged row the pipeline produces from the three tables above. -/
def comboEx : ComboRow :=
  { month := 201001, theta_gradient_med := some 10, theta_gradient_iqr := some 2,
    rh_850_med := some 50, height_diff_med := some 2300, soundings := 5,
    aod500 := some 1, aod870 := some 1, ae_440_870 := some 1, obs_days := some 15,
    total_aod := some 1, fine_aod := some 1, coarse_aod := some 1,
    fine_fraction := some 1 }

/-- Witness for C2: the concrete merged row has its month in all three
sources and above the floor, and the concrete merged output is sorted. -/
theorem merged_month_invariant_witness :
    (comboEx.month ∈ igraEx.map IgraMonthlyRow.month ∧
     comboEx.month ∈ aodEx.map AodRow.month ∧
     comboEx.month ∈ sdaEx.map SdaRow.month ∧
     monthFloor ≤ comboEx.month) ∧
    List.Sorted (· ≤ ·) ((mainMerged igraEx aodEx sdaEx).map ComboRow.month) :=
  ⟨(merged_month_invariant igraEx aodEx sdaEx).1 comboEx (by decide),
   (merged_month_invariant igraEx aodEx sdaEx).2 (by decide)⟩

/-- Three merged rows on which the four pairs each have three valid paired
observations, but the third row is missing total AOD — a column no pair
uses. -/
def c1Rows : List ComboRow :=
  [{ month := 201001, theta_gradient_med := some 10, theta_gradient_iqr := some 2,
     rh_850_med := some 50, height_diff_med := some 2300, soundings := 5,
     aod500 := some 1, aod870 := some 1, ae_440_870 := some 1, obs_days := some 15,
     total_aod := some 1, fine_aod := some 1, coarse_aod := some 1,
     fine_fraction := some 1 },
   { month := 201002, theta_gradient_med := some 11, theta_gradient_iqr := some 2,
     rh_850_med := some 55, height_diff_med := some 2280, soundings := 6,
     aod500 := some 2, aod870 := some 1, ae_440_870 := some 1, obs_days := some 12,
     total_aod := some 2, fine_aod := some 2, coarse_aod := some 1,
     fine_fraction := some 1 },
   { month := 201003, theta_gradient_med := some 12, theta_gradient_iqr := some 2,
     rh_850_med := some 60, height_diff_med := some 2260, soundings := 7,
     aod500 := some 3, aod870 := some 1, ae_440_870 := some 1, obs_days := some 10,
     total_aod := none, fine_aod := some 3, coarse_aod := some 1,
     fine_fraction := some 1 }]

/-- Counterexample for claim C1: the stability-versus-fine-AOD pair has three
rows with both columns present, so the claim requires it in the output, yet
`calculate_correlations` emits nothing: its joint `dropna` over all six
columns (including total AOD, which no pair uses) leaves only two rows, and
the single `> 2` gate then suppresses all four pairs. -/
theorem correlation_pair_gate_counterexample :
    specPairedCount c1Rows ComboRow.theta_gradient_med ComboRow.fine_aod = 3 ∧
    calculate_correlations c1Rows = [] := by
  constructor
  · decide
  · decide

/-- Claim C1 (amended): `calculate_correlations` first drops every row with a
missing value in any of the six selected columns (stability median, fine,
coarse and total AOD, fine-mode fraction, humidity median) jointly; if more
than two rows survive, all four pairs are emitted over that jointly cleaned
table, and otherwise no pair is emitted at all (no zero or null entry). -/
theorem calculate_correlations_joint_gate (rows : List ComboRow) (k : String) :
    ((∃ e ∈ calculate_correlations rows, e.key = k) ↔
      (k ∈ corrPairKeys ∧ 2 < (cleanCombo rows).length)) ∧
    (∀ e ∈ calculate_correlations rows,
      e.xs.length = (cleanCombo rows).length ∧
      e.ys.length = (cleanCombo rows).length) := by
  by_cases h : 2 < (cleanCombo rows).length
  · constructor
    · constructor
      · rintro ⟨e, he, rfl⟩
        refine ⟨?_, h⟩
        simp only [calculate_correlations, if_pos h, List.mem_cons,
          List.mem_singleton] at he
        rcases he with rfl | rfl | rfl | rfl | hfalse
        · simp [corrPairKeys]
        · simp [corrPairKeys]
        · simp [corrPairKeys]
        · simp [corrPairKeys]
        · exact absurd hfalse (List.not_mem_nil _)
      · rintro ⟨hk, -⟩
        simp only [corrPairKeys, List.mem_cons, List.mem_singleton] at hk
        simp only [calculate_correlations, if_pos h]
        rcases hk with rfl | rfl | rfl | rfl | hfalse
        · exact ⟨_, List.mem_cons_self _ _, rfl⟩
        · exact ⟨_, List.mem_cons_of_mem _ (List.mem_cons_self _ _), rfl⟩
        · exact ⟨_, List.mem_cons_of_mem _
            (List.mem_cons_of_mem _ (List.mem_cons_self _ _)), rfl⟩
        · exact ⟨_, List.mem_cons_of_mem _ (List.mem_cons_of_mem _
            (List.mem_cons_of_mem _ (List.mem_cons_self _ _))), rfl⟩
        · exact absurd hfalse (List.not_mem_nil _)
    · intro e he
      simp only [calculate_correlations, if_pos h, List.mem_cons,
        List.mem_singleton] at he
      rcases he with rfl | rfl | rfl | rfl | hfalse
      · simp [colOf]
      · simp [colOf]
      · simp [colOf]
      · simp [colOf]
      · exact absurd hfalse (List.not_mem_nil _)
  · constructor
    · simp [calculate_correlations, if_neg h, h]
    · intro e he
      simp [calculate_correlations, if_neg h] at he

/-- Three merged rows with every one of the six selected columns present. -/
def c1RowsOk : List ComboRow :=
  [{ month := 201001, theta_gradient_med := some 10, theta_gradient_iqr := some 2,
     rh_850_med := some 50, height_diff_med := some 2300, soundings := 5,
     aod500 := some 1, aod870 := some 1, ae_440_870 := some 1, obs_days := some 15,
     total_aod := some 1, fine_aod := some 1, coarse_aod := some 1,
     fine_fraction := some 1 },
   { month := 201002, theta_gradient_med := some 11, theta_gradient_iqr := some 2,
     rh_850_med := some 55, height_diff_med := some 2280, soundings := 6,
     aod500 := some 2, aod870 := some 1, ae_440_870 := some 1, obs_days := some 12,
     total_aod := some 2, fine_aod := some 2, coarse_aod := some 1,
     fine_fraction := some 1 },
   { month := 201003, theta_gradient_med := some 12, theta_gradient_iqr := some 2,
     rh_850_med := some 60, height_diff_med := some 2260, soundings := 7,
     aod500 := some 3, aod870 := some 1, ae_440_870 := some 1, obs_days := some 10,
     total_aod := some 3, fine_aod := some 3, coarse_aod := some 1,
     fine_fraction := some 1 }]

/-- The stability-versus-fine-AOD entry emitted on `c1RowsOk`. -/
def c1Entry : CorrEntry :=
  { key := "stability_vs_fine_aod", xs := [10, 11, 12], ys := [1, 2, 3] }

/-- Witness for the amended C1: with three jointly complete rows the
stability-versus-fine-AOD pair is emitted, and its sample columns have one
value per cleaned row. -/
theorem calculate_correlations_joint_gate_witness :
    (∃ e ∈ calculate_correlations c1RowsOk, e.key = "stability_vs_fine_aod") ∧
    (c1Entry.xs.length = (cleanCombo c1RowsOk).length ∧
     c1Entry.ys.length = (cleanCombo c1RowsOk).length) :=
  ⟨(calculate_correlations_joint_gate c1RowsOk "stability_vs_fine_aod").1.mpr
      ⟨by decide, by decide⟩,
   (calculate_correlations_joint_gate c1RowsOk "stability_vs_fine_aod").2 c1Entry
      (by decide)⟩
